import Mathlib

/-!
Shallow embedding of the metrics core of the Longtail venture-studio
dashboard: the Stripe status classifier and snapshot fetcher
(`lib/stripe-data.ts` / `lib/stripe-status.ts`), the tracking-event
ingestors (the two `POST /api/track` route variants), the Stripe webhook
receiver (`app/api/webhooks/stripe/route.ts`) and the dashboard portfolio
aggregation (`app/dashboard/page.tsx`).

Modelling conventions: JavaScript numbers are embedded as rationals (`ℚ`);
optional / nullable JS values as `Option`; JS truthiness of strings and
numbers via explicit helpers (`none` and the empty string are falsy, the
number 0 is falsy).  Timestamp-valued columns (`created_at`, `updated_at`,
`canceled_at`, period bounds) are omitted: no claim mentions them and they
would only thread an ambient clock through every operation.
-/

namespace Studio

/-- JS truthiness of an optional string: `undefined`/`null` and `""` are
falsy, every other string is truthy. -/
def truthyStr : Option String → Bool
  | none => false
  | some s => s != ""

/-- JS truthiness of an optional number: `undefined`/`null` and `0` are
falsy. -/
def truthyNum : Option ℚ → Bool
  | none => false
  | some a => a != 0

/-- JS `x || d` on an optional string: the default replaces a falsy value. -/
def orDefault (x : Option String) (d : String) : String :=
  match x with
  | none => d
  | some s => if s = "" then d else s

/-- JS `x || null` on an optional string: `""` collapses to `null`. -/
def orNull (x : Option String) : Option String :=
  match x with
  | none => none
  | some s => if s = "" then none else some s

/-! ## Status classifier (`lib/stripe-status.ts`) -/

/-- The `status` discriminant of the `StripeStatus` union type, including
the declared-but-unused `needs_env_vars` variant. -/
inductive StatusTag
  | ready
  | needs_stripe_key
  | needs_webhook_secret
  | needs_env_vars
  | no_products
  | no_data
  | error
deriving DecidableEq, Repr

/-- `StripeStatus` record: discriminant, human message, optional detail. -/
structure StripeStatus where
  status : StatusTag
  message : String
  details : Option String
deriving DecidableEq, Repr

/-- `VentureStripeConfig`: all fields optional in the TS type. -/
structure VentureStripeConfig where
  stripeSecretKey : Option String := none
  stripeWebhookSecret : Option String := none
  hasProducts : Option Bool := none
  hasSubscriptions : Option Bool := none
  error : Option String := none
deriving DecidableEq, Repr

/-- `getStripeStatus` from `lib/stripe-status.ts`: the if-chain over the
configuration, in source order. -/
def getStripeStatus (config : VentureStripeConfig) : StripeStatus :=
  if truthyStr config.stripeSecretKey = false then
    { status := .needs_stripe_key
      message := "Needs Stripe API Key"
      details := some "Add STRIPE_SECRET_KEY in venture settings" }
  else if truthyStr config.stripeWebhookSecret = false then
    { status := .needs_webhook_secret
      message := "Needs Webhook Secret"
      details := some "Add STRIPE_WEBHOOK_SECRET for real-time sync" }
  else if truthyStr config.error = true then
    { status := .error
      message := "Stripe Connection Error"
      details := config.error }
  else if config.hasProducts = some false then
    { status := .no_products
      message := "No Products in Stripe"
      details := some "Create products and prices in Stripe Dashboard" }
  else if config.hasSubscriptions = some false then
    { status := .no_data
      message := "No Subscription Data"
      details := some "No customers or subscriptions found yet" }
  else
    { status := .ready
      message := "Connected"
      details := some "Stripe is configured and syncing" }

/-! ## Billing snapshot fetcher (`lib/stripe-data.ts`) -/

/-- The `recurring` sub-object of a Stripe price: only its `interval`
string is consulted by the fetcher. -/
structure Recurring where
  interval : String
deriving DecidableEq, Repr

/-- A Stripe price object, restricted to the fields the fetcher reads. -/
structure PriceObj where
  id : String
  unit_amount : Option ℚ
  recurring : Option Recurring
  product : String
deriving DecidableEq, Repr

/-- A line item of a subscription (`sub.items.data` element). -/
structure SubItem where
  price : PriceObj
deriving DecidableEq, Repr

/-- A Stripe subscription, restricted to its line items. -/
structure SubscriptionObj where
  items : List SubItem
deriving DecidableEq, Repr

/-- A Stripe product, restricted to the fields the fetcher reads. -/
structure ProductObj where
  id : String
  name : String
deriving DecidableEq, Repr

/-- A Stripe charge, restricted to the fields the fetcher reads. -/
structure ChargeObj where
  amount : ℚ
  paid : Bool
  refunded : Bool
deriving DecidableEq, Repr

/-- The responses of the five remote Stripe list calls made by
`fetchVentureStripeData` when they succeed: active products, active
prices, active subscriptions, the customer count (only
`customers.data.length` is read), recent charges, and the canceled
subscription count (only `cancelledSubs.data.length` is read). -/
structure RemoteData where
  products : List ProductObj
  prices : List PriceObj
  subscriptions : List SubscriptionObj
  customersCount : Nat
  charges : List ChargeObj
  canceledCount : Nat
deriving DecidableEq, Repr

/-- Monthly normalization of one line item (`stripe-data.ts` lines 76-85):
`unit_amount || 0`, divided by 12 for a yearly interval, multiplied by 4
for a weekly interval, unchanged otherwise. -/
def itemMonthlyAmount (item : SubItem) : ℚ :=
  let amount := item.price.unit_amount.getD 0
  match item.price.recurring with
  | some r =>
    if r.interval = "year" then amount / 12
    else if r.interval = "week" then amount * 4
    else amount
  | none => amount

/-- The MRR accumulation loop (`stripe-data.ts` lines 71-93): each item
adds its monthly-normalized amount divided by 100 (cents to dollars). -/
def computeMrr (subs : List SubscriptionObj) : ℚ :=
  subs.foldl (fun acc sub =>
    sub.items.foldl (fun acc2 item => acc2 + itemMonthlyAmount item / 100) acc) 0

/-- `planCounts[priceId]` after the MRR loop: the number of line items
across all active subscriptions whose price id matches. -/
def planCount (subs : List SubscriptionObj) (priceId : String) : Nat :=
  (subs.flatMap (fun s => s.items)).countP (fun it => it.price.id = priceId)

/-- One row of the `plans` list built by the fetcher. -/
structure PlanRow where
  id : String
  name : String
  price : ℚ
  interval : String
  activeCount : Nat
deriving DecidableEq, Repr

/-- The `plans` list (`stripe-data.ts` lines 96-113): active recurring
prices mapped to rows (yearly prices divided by 12 — the weekly case is
not normalized here, unlike the MRR loop) and sorted descending by
active-subscription count (JS stable sort with comparator
`b.activeCount - a.activeCount`). -/
def buildPlans (remote : RemoteData) : List PlanRow :=
  let rows := (remote.prices.filter (fun p => p.recurring.isSome)).map (fun price =>
    let product := remote.products.find? (fun prod => prod.id = price.product)
    let monthlyPrice0 := price.unit_amount.getD 0 / 100
    let monthlyPrice :=
      if (match price.recurring with | some r => some r.interval | none => none)
          = some "year"
      then monthlyPrice0 / 12 else monthlyPrice0
    { id := price.id
      name := orDefault (product.map (fun prod => prod.name)) "Unknown Plan"
      price := monthlyPrice
      interval := orDefault
        (match price.recurring with | some r => some r.interval | none => none) "month"
      activeCount := planCount remote.subscriptions price.id : PlanRow })
  rows.mergeSort (fun a b => b.activeCount ≤ a.activeCount)

/-- Average plan price (`stripe-data.ts` lines 116-121): MRR divided by
the active-subscription count when subscriptions exist, else the simple
average of plan-row prices, else 0. -/
def computeAvgPlanPrice (remote : RemoteData) : ℚ :=
  if remote.subscriptions.length > 0 then
    computeMrr remote.subscriptions / remote.subscriptions.length
  else if (buildPlans remote).length > 0 then
    (buildPlans remote).foldl (fun s p => s + p.price) 0 / (buildPlans remote).length
  else 0

/-- The `TARGET_ARR` constant of `stripe-data.ts` (line 28). -/
def TARGET_ARR : ℚ := 1000000

/-- Subscribers needed for the target (`stripe-data.ts` lines 124-126). -/
def computeSubscribersToTarget (avgPlanPrice : ℚ) : ℤ :=
  if avgPlanPrice > 0 then ⌈TARGET_ARR / 12 / avgPlanPrice⌉ else 0

/-- Total revenue (`stripe-data.ts` lines 130-132): sum of paid,
non-refunded charge amounts converted from cents. -/
def computeTotalRevenue (charges : List ChargeObj) : ℚ :=
  (charges.filter (fun c => c.paid && !c.refunded)).foldl
    (fun s c => s + c.amount / 100) 0

/-- JS `Math.round`: round half toward positive infinity. -/
def jsRound (x : ℚ) : ℤ := ⌊x + 1 / 2⌋

/-- The `data` object of a venture snapshot. -/
structure VentureData where
  totalRevenue : ℚ
  mrr : ℚ
  activeSubscriptions : Nat
  totalCustomers : Nat
  churnedCustomers : Nat
  churnRate : ℚ
  avgPlanPrice : ℚ
  subscribersToTarget : ℤ
  plans : List PlanRow
deriving DecidableEq, Repr

/-- The result type of the fetcher: a status plus nullable data. -/
structure VentureStripeData where
  status : StripeStatus
  data : Option VentureData
deriving DecidableEq, Repr

/-- `fetchVentureStripeData` from `lib/stripe-data.ts`, with the remote
Stripe interaction embedded as an `Except`: `.error msg` is the path in
which some remote call throws with message `msg` (the catch block, lines
178-201), `.ok remote` the path in which all remote calls succeed. -/
def fetchVentureStripeData (stripeSecretKey stripeWebhookSecret : Option String)
    (remote : Except String RemoteData) : VentureStripeData :=
  let config : VentureStripeConfig :=
    { stripeSecretKey := stripeSecretKey, stripeWebhookSecret := stripeWebhookSecret }
  if truthyStr stripeSecretKey = false then
    { status := getStripeStatus config, data := none }
  else
    match remote with
    | .error errorMessage =>
      if (errorMessage.splitOn "Invalid API Key").length > 1 then
        { status := { status := .error, message := "Invalid Stripe Key"
                      details := some "The API key is invalid or expired" }
          data := none }
      else
        { status := { status := .error, message := "Stripe Error"
                      details := some errorMessage }
          data := none }
    | .ok r =>
      if r.products.length = 0 then
        { status := getStripeStatus { config with hasProducts := some false }
          data := none }
      else
        let mrr := computeMrr r.subscriptions
        let plans := buildPlans r
        let avgPlanPrice := computeAvgPlanPrice r
        let subscribersToTarget := computeSubscribersToTarget avgPlanPrice
        let totalRevenue := computeTotalRevenue r.charges
        let churnedCustomers := r.canceledCount
        let totalWithHistory := r.subscriptions.length + churnedCustomers
        let churnRate : ℚ :=
          if totalWithHistory > 0
          then ((churnedCustomers : ℚ) / (totalWithHistory : ℚ)) * 100 else 0
        if r.subscriptions.length = 0 ∧ r.customersCount = 0 then
          { status := getStripeStatus
              { config with hasProducts := some true, hasSubscriptions := some false }
            data := some
              { totalRevenue := totalRevenue
                mrr := 0
                activeSubscriptions := 0
                totalCustomers := 0
                churnedCustomers := 0
                churnRate := 0
                avgPlanPrice := avgPlanPrice
                subscribersToTarget := subscribersToTarget
                plans := plans } }
        else
          { status := { status := .ready, message := "Connected", details := none }
            data := some
              { totalRevenue := totalRevenue
                mrr := mrr
                activeSubscriptions := r.subscriptions.length
                totalCustomers := r.customersCount
                churnedCustomers := churnedCustomers
                churnRate := (jsRound (churnRate * 10) : ℚ) / 10
                avgPlanPrice := (jsRound (avgPlanPrice * 100) : ℚ) / 100
                subscribersToTarget := subscribersToTarget
                plans := plans } }

/-! ## Persistent store (Supabase tables, `001_initial_schema.sql` /
`002_stripe_migration.sql`)

Row ids generated by the database are modeled as a `Nat` counter for
signups (the only table whose generated id the handlers read back and use
as an update key).  Timestamp and JSON-payload columns are omitted as
stated above. -/

/-- A row of the `ventures` table, restricted to the columns the modeled
handlers read. -/
structure VentureRow where
  id : String
  slug : String
  stripe_secret_key : Option String := none
  stripe_webhook_secret : Option String := none
deriving DecidableEq, Repr

/-- A row of the `signups` table. -/
structure SignupRow where
  id : Nat
  venture_id : String
  email : Option String := none
  name : Option String := none
  company : Option String := none
  plan : String := "free"
  status : String := "trial"
  source : Option String := none
deriving DecidableEq, Repr

/-- A row of the `revenue` table (append-only). -/
structure RevenueRow where
  venture_id : String
  signup_id : Option Nat := none
  amount : Option ℚ := none
  currency : Option String := none
  type : String
  plan : Option String := none
  email : Option String := none
  stripe_payment_id : Option String := none
  stripe_subscription_id : Option String := none
deriving DecidableEq, Repr

/-- A row of the `events` table (append-only activity feed; the free-form
JSON `data` column is omitted). -/
structure EventRow where
  venture_id : String
  type : String
  email : Option String := none
deriving DecidableEq, Repr

/-- A row of the `subscriptions` table. -/
structure SubscriptionRow where
  venture_id : String
  signup_id : Option Nat := none
  stripe_subscription_id : String
  stripe_customer_id : Option String := none
  price_id : Option String := none
  status : String
deriving DecidableEq, Repr

/-- A row of the `plans` table. -/
structure PlanDbRow where
  id : Option String := none
  venture_id : String
  stripe_product_id : Option String := none
  name : String
  description : Option String := none
  features : List String := []
  is_active : Bool := true
deriving DecidableEq, Repr

/-- A row of the `prices` table. -/
structure PriceDbRow where
  id : Option String := none
  venture_id : String
  plan_id : Option String := none
  stripe_price_id : Option String := none
  amount : ℚ := 0
  currency : String := "USD"
  interval : String := "month"
  interval_count : ℚ := 1
  is_active : Bool := true
deriving DecidableEq, Repr

/-- The persistent store. -/
structure DB where
  ventures : List VentureRow := []
  signups : List SignupRow := []
  revenue : List RevenueRow := []
  events : List EventRow := []
  subscriptions : List SubscriptionRow := []
  plans : List PlanDbRow := []
  prices : List PriceDbRow := []
  nextSignupId : Nat := 0
deriving DecidableEq, Repr

/-- Supabase `.single()`: returns the row only when exactly one matches,
an error (here `none`) when zero or several match. -/
def single {α : Type} : List α → Option α
  | [x] => some x
  | _ => none

/-- Venture resolution by slug (`.from('ventures').select('id')
.eq('slug', slug).single()`). -/
def findVentureIdBySlug (db : DB) (slug : String) : Option String :=
  (single (db.ventures.filter (fun v => v.slug == slug))).map (fun v => v.id)

/-- Update every signup of a venture matching an email (the handlers'
`.update(...).eq('venture_id', id).eq('email', email)`). -/
def updateSignupsByEmail (db : DB) (ventureId email : String)
    (f : SignupRow → SignupRow) : DB :=
  { db with signups := db.signups.map (fun s =>
      if s.venture_id == ventureId && s.email == some email then f s else s) }

/-! ## Tracking ingestor, slug-resolving variant (`POST /api/track`,
`src/unnamed/part_006` lines 527-779) -/

/-- The request body of the tracking endpoint. -/
structure TrackRequest where
  venture : Option String := none
  event : Option String := none
  email : Option String := none
  name : Option String := none
  plan : Option String := none
  amount : Option ℚ := none
  currency : Option String := none
  status : Option String := none
  source : Option String := none
deriving DecidableEq, Repr

/-- The `signup` case (part_006 lines 569-615): check-then-update/insert
keyed by (venture, email), then append a `signup` event. -/
def handleTrackSignup (db : DB) (ventureId : String) (req : TrackRequest) :
    DB × Nat :=
  if truthyStr req.email = false then (db, 400)
  else
    let email := req.email.getD ""
    let existing := single (db.signups.filter (fun s =>
      s.venture_id == ventureId && s.email == some email))
    let db1 : DB :=
      match existing with
      | some ex =>
        { db with signups := db.signups.map (fun s =>
            if s.id == ex.id then
              { s with name := orNull req.name
                       plan := orDefault req.plan "free"
                       status := orDefault req.status "active"
                       source := orNull req.source }
            else s) }
      | none =>
        { db with
          signups := db.signups ++ [{
            id := db.nextSignupId
            venture_id := ventureId
            email := some email
            name := orNull req.name
            plan := orDefault req.plan "free"
            status := orDefault req.status "active"
            source := orNull req.source }]
          nextSignupId := db.nextSignupId + 1 }
    ({ db1 with events := db1.events ++ [{
        venture_id := ventureId, type := "signup", email := some email }] }, 200)

/-- The `subscription` case (part_006 lines 617-653). -/
def handleTrackSubscription (db : DB) (ventureId : String) (req : TrackRequest) :
    DB × Nat :=
  if truthyStr req.email = false then (db, 400)
  else
    let email := req.email.getD ""
    let db1 := updateSignupsByEmail db ventureId email (fun s =>
      { s with plan := orDefault req.plan "paid"
               status := orDefault req.status "active" })
    let db2 : DB :=
      if truthyNum req.amount && decide (req.amount.getD 0 > 0) then
        { db1 with revenue := db1.revenue ++ [{
            venture_id := ventureId
            amount := req.amount
            currency := some (orDefault req.currency "USD")
            type := "subscription"
            email := some email }] }
      else db1
    ({ db2 with events := db2.events ++ [{
        venture_id := ventureId, type := "subscription", email := some email }] }, 200)

/-- The `payment` case (part_006 lines 655-678): rejects a falsy amount
(`!amount`), otherwise appends one revenue row of type `payment` and one
`payment` event. -/
def handleTrackPayment (db : DB) (ventureId : String) (req : TrackRequest) :
    DB × Nat :=
  if truthyNum req.amount = false then (db, 400)
  else
    let db1 : DB := { db with revenue := db.revenue ++ [{
        venture_id := ventureId
        amount := req.amount
        currency := some (orDefault req.currency "USD")
        type := "payment"
        email := orNull req.email }] }
    ({ db1 with events := db1.events ++ [{
        venture_id := ventureId, type := "payment", email := orNull req.email }] }, 200)

/-- The `churn` case (part_006 lines 680-704). -/
def handleTrackChurn (db : DB) (ventureId : String) (req : TrackRequest) :
    DB × Nat :=
  if truthyStr req.email = false then (db, 400)
  else
    let email := req.email.getD ""
    let db1 := updateSignupsByEmail db ventureId email (fun s =>
      { s with status := "churned" })
    ({ db1 with events := db1.events ++ [{
        venture_id := ventureId, type := "churn", email := some email }] }, 200)

/-- The `trial_start` case (part_006 lines 706-731). -/
def handleTrackTrialStart (db : DB) (ventureId : String) (req : TrackRequest) :
    DB × Nat :=
  if truthyStr req.email = false then (db, 400)
  else
    let email := req.email.getD ""
    let db1 := updateSignupsByEmail db ventureId email (fun s =>
      { s with plan := orDefault req.plan "trial", status := "trial" })
    ({ db1 with events := db1.events ++ [{
        venture_id := ventureId, type := "trial_start", email := some email }] }, 200)

/-- The `trial_end` case (part_006 lines 733-758): converts to `active`
exactly when the supplied status is the string `active`. -/
def handleTrackTrialEnd (db : DB) (ventureId : String) (req : TrackRequest) :
    DB × Nat :=
  if truthyStr req.email = false then (db, 400)
  else
    let email := req.email.getD ""
    let newStatus := if req.status == some "active" then "active" else "churned"
    let db1 := updateSignupsByEmail db ventureId email (fun s =>
      { s with status := newStatus })
    ({ db1 with events := db1.events ++ [{
        venture_id := ventureId, type := "trial_end", email := some email }] }, 200)

/-- The default case (part_006 lines 760-768): generic event append. -/
def handleTrackDefault (db : DB) (ventureId : String) (req : TrackRequest) :
    DB × Nat :=
  ({ db with events := db.events ++ [{
      venture_id := ventureId
      type := req.event.getD ""
      email := orNull req.email }] }, 200)

/-- `POST /api/track` (part_006): field validation, venture resolution by
slug, then the per-event-type switch. -/
def trackIngest (db : DB) (req : TrackRequest) : DB × Nat :=
  if truthyStr req.venture = false then (db, 400)
  else if truthyStr req.event = false then (db, 400)
  else
    match findVentureIdBySlug db (req.venture.getD "") with
    | none => (db, 404)
    | some ventureId =>
      let ev := req.event.getD ""
      if ev == "signup" then handleTrackSignup db ventureId req
      else if ev == "subscription" then handleTrackSubscription db ventureId req
      else if ev == "payment" then handleTrackPayment db ventureId req
      else if ev == "churn" then handleTrackChurn db ventureId req
      else if ev == "trial_start" then handleTrackTrialStart db ventureId req
      else if ev == "trial_end" then handleTrackTrialEnd db ventureId req
      else handleTrackDefault db ventureId req

/-! ## Tracking ingestor, API-key variant (`POST /api/track`,
`src/unnamed/part_009`) -/

/-- The `data` object of the API-key tracking variant. -/
structure Track9Data where
  email : Option String := none
  name : Option String := none
  company : Option String := none
  plan : Option String := none
  source : Option String := none
  amount : Option ℚ := none
  currency : Option String := none
  type : Option String := none
  from_plan : Option String := none
  to_plan : Option String := none
  reason : Option String := none
deriving DecidableEq, Repr

/-- The request body (plus API-key header) of the API-key variant. -/
structure Track9Request where
  apiKey : Option String := none
  project : Option String := none
  event : Option String := none
  data : Track9Data := {}
deriving DecidableEq, Repr

/-- `handleSignup` of part_009 (lines 72-94): a plain insert with no
existence check, plus a `signup` event append. -/
def handleSignup9 (db : DB) (ventureId : String) (d : Track9Data) : DB :=
  let plan := d.plan.getD "free"
  let db1 : DB := { db with
    signups := db.signups ++ [{
      id := db.nextSignupId
      venture_id := ventureId
      email := d.email
      name := d.name
      company := d.company
      plan := plan
      status := if plan == "free" then "trial" else "active"
      source := d.source }]
    nextSignupId := db.nextSignupId + 1 }
  { db1 with events := db1.events ++ [{
      venture_id := ventureId, type := "signup", email := d.email }] }

/-- `handleRevenue` of part_009 (lines 96-146): inserts a revenue row with
the explicit type flag (default `subscription`), reactivates the signup
unless the type is `refund`, and logs a `payment` or `refund` event by
the type flag. -/
def handleRevenue9 (db : DB) (ventureId : String) (d : Track9Data) : DB :=
  let ty := d.type.getD "subscription"
  let signup := single (db.signups.filter (fun s =>
    s.venture_id == ventureId && s.email == d.email))
  let db1 : DB := { db with revenue := db.revenue ++ [{
      venture_id := ventureId
      signup_id := signup.map (fun s => s.id)
      amount := d.amount
      currency := some (d.currency.getD "AUD")
      type := ty
      plan := d.plan
      stripe_payment_id := none
      stripe_subscription_id := none }] }
  let db2 : DB :=
    match signup with
    | some s =>
      if ty != "refund" then
        { db1 with signups := db1.signups.map (fun x =>
            if x.id == s.id then
              { x with status := "active"
                       plan := if truthyStr d.plan then d.plan.getD "" else x.plan }
            else x) }
      else db1
    | none => db1
  { db2 with events := db2.events ++ [{
      venture_id := ventureId
      type := if ty == "refund" then "refund" else "payment"
      email := d.email }] }

/-- `handlePlanChange` of part_009 (lines 148-183). -/
def handlePlanChange9 (db : DB) (ventureId : String) (ev : String)
    (d : Track9Data) : DB :=
  let db1 : DB := { db with signups := db.signups.map (fun s =>
      if s.venture_id == ventureId && s.email == d.email then
        { s with plan := match d.to_plan with | some p => p | none => s.plan }
      else s) }
  let db2 : DB :=
    if truthyNum d.amount && decide (d.amount.getD 0 > 0) then
      let signup := single (db1.signups.filter (fun s =>
        s.venture_id == ventureId && s.email == d.email))
      { db1 with revenue := db1.revenue ++ [{
          venture_id := ventureId
          signup_id := signup.map (fun s => s.id)
          amount := d.amount
          type := ev
          plan := d.to_plan }] }
    else db1
  { db2 with events := db2.events ++ [{
      venture_id := ventureId, type := ev, email := d.email }] }

/-- `handleChurn` of part_009 (lines 185-202). -/
def handleChurn9 (db : DB) (ventureId : String) (d : Track9Data) : DB :=
  let db1 : DB := { db with signups := db.signups.map (fun s =>
      if s.venture_id == ventureId && s.email == d.email then
        { s with status := "churned" }
      else s) }
  { db1 with events := db1.events ++ [{
      venture_id := ventureId, type := "churn", email := d.email }] }

/-- `POST /api/track` (part_009): API-key check against the configured
tracker key, venture resolution by the `project` slug, then the switch. -/
def trackIngest9 (trackerApiKey : Option String) (db : DB)
    (req : Track9Request) : DB × Nat :=
  if truthyStr req.apiKey = false || req.apiKey != trackerApiKey then (db, 401)
  else if truthyStr req.project = false || truthyStr req.event = false then (db, 400)
  else
    match findVentureIdBySlug db (req.project.getD "") with
    | none => (db, 404)
    | some ventureId =>
      let ev := req.event.getD ""
      if ev == "signup" then (handleSignup9 db ventureId req.data, 200)
      else if ev == "revenue" then (handleRevenue9 db ventureId req.data, 200)
      else if ev == "upgrade" || ev == "downgrade" then
        (handlePlanChange9 db ventureId ev req.data, 200)
      else if ev == "churn" then (handleChurn9 db ventureId req.data, 200)
      else
        ({ db with events := db.events ++ [{
            venture_id := ventureId, type := ev, email := req.data.email }] }, 200)

/-! ## Stripe webhook receiver (`app/api/webhooks/stripe/route.ts`)

The Stripe SDK's `constructEvent` (HMAC verification of the raw body
against the venture's signing secret) is an external cryptographic call;
its outcome is embedded as the delivery's `signatureValid` flag.  The JS
switch on `event.type` is embedded as the equivalent if-chain, and each
case reads `event.data.object` with the shape Stripe delivers for that
type; a delivery whose object does not match its type is mapped to the
no-op branch.  `upsert(..., onConflict: key)` is embedded as
replace-matching-row-or-append. -/

/-- The subscription object of a subscription-lifecycle webhook.  The JS
`(subscription.customer as any)?.email` is always undefined (customer is
an id string), so the customer email resolves to `metadata?.email`. -/
structure WebhookSubscription where
  id : String
  customer : Option String := none
  metadataEmail : Option String := none
  priceId : Option String := none
  status : String := "active"
deriving DecidableEq, Repr

/-- The invoice object of an invoice webhook. -/
structure WebhookInvoice where
  amount_paid : ℚ := 0
  amount_due : ℚ := 0
  customer_email : Option String := none
  currency : String := "usd"
  billing_reason : Option String := none
  payment_intent : Option String := none
  subscription : Option String := none
deriving DecidableEq, Repr

/-- The product object of a product webhook. -/
structure WebhookProduct where
  id : String
  name : String
  description : Option String := none
  features : Option (List String) := none
  active : Bool := true
deriving DecidableEq, Repr

/-- The price object of a price webhook (recurring fields flattened). -/
structure WebhookPrice where
  id : String
  product : String
  unit_amount : Option ℚ := none
  currency : String := "usd"
  recurringInterval : Option String := none
  recurringIntervalCount : Option ℚ := none
  active : Bool := true
deriving DecidableEq, Repr

/-- The `event.data.object` payload, by shape. -/
inductive WebhookObject
  | sub (s : WebhookSubscription)
  | invoice (i : WebhookInvoice)
  | product (p : WebhookProduct)
  | price (p : WebhookPrice)
deriving DecidableEq, Repr

/-- One inbound webhook delivery. -/
structure WebhookRequest where
  ventureSlug : Option String := none
  signatureValid : Bool := false
  eventType : String
  object : WebhookObject
deriving DecidableEq, Repr

/-- Supabase `upsert(row, onConflict: key)`: replace the matching rows
(keeping any column absent from the payload via `merge`) or append. -/
def upsertRow {α : Type} (hit : α → Bool) (merge : α → α) (row : α)
    (rows : List α) : List α :=
  if rows.any hit then
    rows.map (fun r => if hit r then merge r else r)
  else rows ++ [row]

/-- `handleSubscriptionChange` (webhook route lines 77-139). -/
def handleSubscriptionChange (db : DB) (ventureId : String)
    (s : WebhookSubscription) : DB :=
  let price := single (db.prices.filter (fun p =>
    p.stripe_price_id == s.priceId && p.venture_id == ventureId))
  let customerEmail := s.metadataEmail
  let signupId : Option Nat :=
    if truthyStr customerEmail then
      (single (db.signups.filter (fun x =>
        x.venture_id == ventureId && x.email == customerEmail))).map (fun x => x.id)
    else none
  let newRow : SubscriptionRow :=
    { venture_id := ventureId
      signup_id := signupId
      stripe_subscription_id := s.id
      stripe_customer_id := s.customer
      price_id := price.bind (fun p => p.id)
      status := s.status }
  let subs1 := upsertRow (fun r => r.stripe_subscription_id == s.id)
    (fun _ => newRow) newRow db.subscriptions
  let db1 : DB := { db with subscriptions := subs1 }
  let db2 : DB :=
    match signupId with
    | some sid =>
      { db1 with signups := db1.signups.map (fun x =>
          if x.id == sid then
            { x with status := if s.status == "active" then "active" else s.status }
          else x) }
    | none => db1
  { db2 with events := db2.events ++ [{
      venture_id := ventureId
      type := "subscription_" ++ s.status
      email := customerEmail }] }

/-- `handleSubscriptionDeleted` (webhook route lines 141-171): mark the
subscription canceled, mark the linked signup churned, and append a
`churn` event — the event append is unconditional on every delivery. -/
def handleSubscriptionDeleted (db : DB) (ventureId : String)
    (s : WebhookSubscription) : DB :=
  let db1 : DB := { db with subscriptions := db.subscriptions.map (fun r =>
      if r.stripe_subscription_id == s.id then { r with status := "canceled" }
      else r) }
  let sub := single (db1.subscriptions.filter (fun r =>
    r.stripe_subscription_id == s.id))
  let db2 : DB :=
    match sub with
    | some r =>
      match r.signup_id with
      | some sid =>
        { db1 with signups := db1.signups.map (fun x =>
            if x.id == sid then { x with status := "churned" } else x) }
      | none => db1
    | none => db1
  { db2 with events := db2.events ++ [{
      venture_id := ventureId, type := "churn", email := none }] }

/-- `handleInvoicePaid` (webhook route lines 173-209). -/
def handleInvoicePaid (db : DB) (ventureId : String) (inv : WebhookInvoice) : DB :=
  if inv.amount_paid == 0 then db
  else
    let signup := single (db.signups.filter (fun x =>
      x.venture_id == ventureId && x.email == inv.customer_email))
    let db1 : DB := { db with revenue := db.revenue ++ [{
        venture_id := ventureId
        signup_id := signup.map (fun x => x.id)
        amount := some (inv.amount_paid / 100)
        currency := some inv.currency.toUpper
        type := if inv.billing_reason == some "subscription_create"
                then "subscription" else "subscription"
        stripe_payment_id := inv.payment_intent
        stripe_subscription_id := inv.subscription }] }
    { db1 with events := db1.events ++ [{
        venture_id := ventureId, type := "payment", email := inv.customer_email }] }

/-- `handlePaymentFailed` (webhook route lines 211-221). -/
def handlePaymentFailed (db : DB) (ventureId : String) (inv : WebhookInvoice) : DB :=
  { db with events := db.events ++ [{
      venture_id := ventureId, type := "payment_failed", email := inv.customer_email }] }

/-- `handleProductChange` (webhook route lines 223-234): upsert a plan by
`stripe_product_id`. -/
def handleProductChange (db : DB) (ventureId : String) (p : WebhookProduct) : DB :=
  let newRow : PlanDbRow :=
    { venture_id := ventureId
      stripe_product_id := some p.id
      name := p.name
      description := p.description
      features := p.features.getD []
      is_active := p.active }
  let plans1 := upsertRow (fun r => r.stripe_product_id == some p.id)
    (fun r => { newRow with id := r.id }) newRow db.plans
  { db with plans := plans1 }

/-- `handlePriceChange` (webhook route lines 236-257): resolve the parent
plan, then upsert a price by `stripe_price_id`. -/
def handlePriceChange (db : DB) (ventureId : String) (p : WebhookPrice) : DB :=
  let plan := single (db.plans.filter (fun pl =>
    pl.stripe_product_id == some p.product && pl.venture_id == ventureId))
  let newRow : PriceDbRow :=
    { venture_id := ventureId
      plan_id := plan.bind (fun pl => pl.id)
      stripe_price_id := some p.id
      amount := p.unit_amount.getD 0 / 100
      currency := p.currency.toUpper
      interval := orDefault p.recurringInterval "one_time"
      interval_count := match p.recurringIntervalCount with
        | some c => if c = 0 then 1 else c
        | none => 1
      is_active := p.active }
  let prices1 := upsertRow (fun r => r.stripe_price_id == some p.id)
    (fun r => { newRow with id := r.id }) newRow db.prices
  { db with prices := prices1 }

/-- The event types the webhook switch handles. -/
def handledEventTypes : List String :=
  ["customer.subscription.created", "customer.subscription.updated",
   "customer.subscription.deleted", "invoice.paid", "invoice.payment_failed",
   "product.created", "product.updated", "price.created", "price.updated"]

/-- `POST /api/webhooks/stripe` (webhook route lines 5-75): slug query
parameter required, venture must resolve with a configured secret key,
signature verification before any write, then the event-type switch; an
unhandled event type falls through to the 200 no-op. -/
def webhookPOST (db : DB) (req : WebhookRequest) : DB × Nat :=
  if truthyStr req.ventureSlug = false then (db, 400)
  else
    match single (db.ventures.filter (fun v => v.slug == req.ventureSlug.getD "")) with
    | none => (db, 404)
    | some venture =>
      if truthyStr venture.stripe_secret_key = false then (db, 404)
      else if req.signatureValid = false then (db, 400)
      else
        let t := req.eventType
        if t == "customer.subscription.created" || t == "customer.subscription.updated" then
          match req.object with
          | .sub s => (handleSubscriptionChange db venture.id s, 200)
          | _ => (db, 200)
        else if t == "customer.subscription.deleted" then
          match req.object with
          | .sub s => (handleSubscriptionDeleted db venture.id s, 200)
          | _ => (db, 200)
        else if t == "invoice.paid" then
          match req.object with
          | .invoice i => (handleInvoicePaid db venture.id i, 200)
          | _ => (db, 200)
        else if t == "invoice.payment_failed" then
          match req.object with
          | .invoice i => (handlePaymentFailed db venture.id i, 200)
          | _ => (db, 200)
        else if t == "product.created" || t == "product.updated" then
          match req.object with
          | .product p => (handleProductChange db venture.id p, 200)
          | _ => (db, 200)
        else if t == "price.created" || t == "price.updated" then
          match req.object with
          | .price p => (handlePriceChange db venture.id p, 200)
          | _ => (db, 200)
        else (db, 200)

/-! ## Dashboard portfolio aggregation (`app/dashboard/page.tsx`,
`src/unnamed/part_012` lines 10-105) -/

/-- A row of the `ventures` table as the dashboard page reads it. -/
structure DashVenture where
  id : String
  name : String
  slug : String
  tagline : Option String := none
  url : Option String := none
  status : Option String := none
  target_arr : Option ℚ := none
  stripe_secret_key : Option String := none
  stripe_webhook_secret : Option String := none
deriving DecidableEq, Repr

/-- The dashboard's per-venture inputs: the venture row, the outcome of
the venture's remote Stripe calls (fed to `fetchVentureStripeData`), and
the venture's signup count (the page reads only the length of the signups
query). -/
structure DashInput where
  venture : DashVenture
  remote : Except String RemoteData
  signupsCount : Nat
deriving Repr

/-- The page-local `TARGET_ARR` constant of `app/dashboard/page.tsx`. -/
def DASH_TARGET_ARR : ℚ := 1000000

/-- The per-venture stat object (part_012 lines 61-89). -/
structure VentureStat where
  id : String
  name : String
  slug : String
  tagline : Option String
  url : Option String
  status : String
  target_arr : ℚ
  total_revenue : ℚ
  mrr : ℚ
  arr : ℚ
  total_signups : Nat
  paid_customers : Nat
  trialing_customers : Nat
  stripe_status : StatusTag
  stripe_message : String
  subscribers_needed : ℤ
  avg_revenue_per_user : ℚ
  lowest_monthly_price : Option ℚ
  has_stripe_pricing : Bool
deriving DecidableEq, Repr

/-- One element of `ventureStats` (part_012 lines 36-91). -/
def ventureStat (inp : DashInput) : VentureStat :=
  let stripeResult := fetchVentureStripeData inp.venture.stripe_secret_key
    inp.venture.stripe_webhook_secret inp.remote
  let stripeData := stripeResult.data
  let subscribersNeeded : ℤ :=
    match stripeData with
    | some d => if d.avgPlanPrice ≠ 0 ∧ d.avgPlanPrice > 0
                then ⌈DASH_TARGET_ARR / 12 / d.avgPlanPrice⌉ else 0
    | none => 0
  { id := inp.venture.id
    name := inp.venture.name
    slug := inp.venture.slug
    tagline := inp.venture.tagline
    url := inp.venture.url
    status := orDefault inp.venture.status "active"
    target_arr := match inp.venture.target_arr with
      | some t => if t = 0 then DASH_TARGET_ARR else t
      | none => DASH_TARGET_ARR
    total_revenue := (stripeData.map (fun d => d.totalRevenue)).getD 0
    mrr := (stripeData.map (fun d => d.mrr)).getD 0
    arr := (stripeData.map (fun d => d.mrr)).getD 0 * 12
    total_signups := inp.signupsCount
    paid_customers := (stripeData.map (fun d => d.activeSubscriptions)).getD 0
    trialing_customers := 0
    stripe_status := stripeResult.status.status
    stripe_message := stripeResult.status.message
    subscribers_needed := subscribersNeeded
    avg_revenue_per_user := (stripeData.map (fun d => d.avgPlanPrice)).getD 0
    lowest_monthly_price :=
      match stripeData.bind (fun d => d.plans.head?.map (fun pr => pr.price)) with
      | some q => if q = 0 then none else some q
      | none => none
    has_stripe_pricing := (stripeData.map (fun d => d.plans.length)).getD 0 > 0 }

/-- The portfolio totals object (part_012 lines 23-30 and 96-103). -/
structure Totals where
  totalRevenue : ℚ
  mrr : ℚ
  arr : ℚ
  totalSignups : Nat
  paidCustomers : Nat
  trialingCustomers : Nat
deriving DecidableEq, Repr

/-- The dashboard page's totals (part_012 lines 19-33 and 93-103): the
empty-portfolio early return, else revenue-derived figures summed over
the `ready`-status ventures only and signups summed over all ventures. -/
def dashboardTotals (inputs : List DashInput) : Totals :=
  if inputs.length = 0 then
    { totalRevenue := 0, mrr := 0, arr := 0
      totalSignups := 0, paidCustomers := 0, trialingCustomers := 0 }
  else
    let ventureStats := inputs.map ventureStat
    let connectedVentures := ventureStats.filter
      (fun v => v.stripe_status == StatusTag.ready)
    { totalRevenue := connectedVentures.foldl (fun s v => s + v.total_revenue) 0
      mrr := connectedVentures.foldl (fun s v => s + v.mrr) 0
      arr := connectedVentures.foldl (fun s v => s + v.arr) 0
      totalSignups := ventureStats.foldl (fun s v => s + v.total_signups) 0
      paidCustomers := connectedVentures.foldl (fun s v => s + v.paid_customers) 0
      trialingCustomers := 0 }

/-- Concrete remote state for the C6 scenario: one active product, no
prices, no subscriptions, no customers, one paid non-refunded charge of
$500 (50000 cents). -/
def c6Remote : RemoteData :=
  { products := [{ id := "prod_1", name := "Basic" }]
    prices := []
    subscriptions := []
    customersCount := 0
    charges := [{ amount := 50000, paid := true, refunded := false }]
    canceledCount := 0 }

/-- Concrete remote state for the C7 witness: one active product with a
single $50/month price and no subscriptions, so the simple plan average
gives an average plan price of $50. -/
def c7Remote : RemoteData :=
  { products := [{ id := "prod_1", name := "Basic" }]
    prices := [{ id := "price_m", unit_amount := some 5000
                 recurring := some { interval := "month" }, product := "prod_1" }]
    subscriptions := []
    customersCount := 0
    charges := []
    canceledCount := 0 }

/-- The snapshot data the fetcher produces on `c7Remote`. -/
def c7Data : VentureData :=
  { totalRevenue := 0
    mrr := 0
    activeSubscriptions := 0
    totalCustomers := 0
    churnedCustomers := 0
    churnRate := 0
    avgPlanPrice := 50
    subscribersToTarget := 1667
    plans := [{ id := "price_m", name := "Basic", price := 50
                interval := "month", activeCount := 0 }] }

/-- The uniqueness invariant of the spec: at most one signup row per
(venture, email) pair. -/
def signupsUnique (db : DB) : Prop :=
  db.signups.Pairwise (fun a b => ¬ (a.venture_id = b.venture_id ∧ a.email = b.email))

/-- Number of `churn` rows in the activity feed. -/
def churnEventCount (db : DB) : Nat :=
  (db.events.filter (fun e => e.type == "churn")).length

/-- A store with one venture `acme` (both Stripe keys configured), one
signup, and one active subscription linked to that signup. -/
def c2Db : DB :=
  { ventures := [{ id := "v1", slug := "acme"
                   stripe_secret_key := some "sk_test_1"
                   stripe_webhook_secret := some "whsec_1" }]
    signups := [{ id := 0, venture_id := "v1", email := some "a@b.c"
                  plan := "pro", status := "active" }]
    subscriptions := [{ venture_id := "v1", signup_id := some 0
                        stripe_subscription_id := "sub_1", status := "active" }]
    nextSignupId := 1 }

/-- A validly signed `customer.subscription.deleted` delivery for the
known subscription `sub_1` of `acme`. -/
def c2Req : WebhookRequest :=
  { ventureSlug := some "acme", signatureValid := true
    eventType := "customer.subscription.deleted"
    object := .sub { id := "sub_1" } }

/-- A validly signed delivery of an event type the switch does not
handle. -/
def c9ReqOther : WebhookRequest :=
  { ventureSlug := some "acme", signatureValid := true
    eventType := "charge.succeeded"
    object := .invoice { amount_paid := 100 } }

/-- The same delivery with a failing signature. -/
def c9ReqBadSig : WebhookRequest :=
  { ventureSlug := some "acme", signatureValid := false
    eventType := "customer.subscription.deleted"
    object := .sub { id := "sub_1" } }

/-- A store with a single venture `acme` and nothing else. -/
def c1Db : DB := { ventures := [{ id := "v1", slug := "acme" }] }

/-- A `signup` event for the API-key tracking variant. -/
def c1Req9 : Track9Request :=
  { apiKey := some "key_1", project := some "acme", event := some "signup"
    data := { email := some "a@b.c", name := some "Ann", plan := some "pro" } }

/-- First `signup` tracking call for (acme, a@b.c). -/
def c1Req1 : TrackRequest :=
  { venture := some "acme", event := some "signup"
    email := some "a@b.c", plan := some "starter" }

/-- Second `signup` tracking call for the same (venture, email) with
different fields. -/
def c1Req2 : TrackRequest :=
  { venture := some "acme", event := some "signup"
    email := some "a@b.c", name := some "Ann", plan := some "pro"
    source := some "ads" }

/-- A `payment` tracking call with a negative amount. -/
def c8ReqNeg : TrackRequest :=
  { venture := some "acme", event := some "payment", amount := some (-5) }

/-- A `payment` tracking call with no amount at all. -/
def c8ReqZero : TrackRequest :=
  { venture := some "acme", event := some "payment" }

/-- A `payment` tracking call with a positive amount. -/
def c8ReqPos : TrackRequest :=
  { venture := some "acme", event := some "payment"
    amount := some 20, email := some "a@b.c" }

/-- A dashboard venture with no Stripe key and 5 tracked signups. -/
def c3VentureA : DashInput :=
  { venture := { id := "vA", name := "Alpha", slug := "alpha" }
    remote := .error "unreachable"
    signupsCount := 5 }

/-- A second unconfigured dashboard venture with 3 tracked signups. -/
def c3VentureC : DashInput :=
  { venture := { id := "vC", name := "Gamma", slug := "gamma" }
    remote := .error "unreachable"
    signupsCount := 3 }

/-! ## Claim theorems -/

/-- Folding addition of a function over a list equals the starting value
plus the sum of the mapped list. -/
theorem foldl_add_map_sum {α M : Type} [AddCommMonoid M] (f : α → M)
    (l : List α) (init : M) :
    l.foldl (fun acc x => acc + f x) init = init + (l.map f).sum := by
  induction l generalizing init with
  | nil => simp
  | cons x xs ih => simp [List.foldl_cons, ih, add_assoc]

/-- Summing a mapped flatMap equals summing the per-element sums. -/
theorem sum_map_flatMap {α β : Type} (f : α → List β) (g : β → ℚ) (l : List α) :
    ((l.flatMap f).map g).sum = (l.map (fun a => ((f a).map g).sum)).sum := by
  induction l with
  | nil => rfl
  | cons x xs ih => simp [List.flatMap_cons, List.map_append, List.sum_append, ih]

/-- The double fold of the MRR loop, from an arbitrary accumulator. -/
theorem computeMrr_foldl_aux (subs : List SubscriptionObj) (init : ℚ) :
    subs.foldl (fun acc sub =>
        sub.items.foldl (fun acc2 item => acc2 + itemMonthlyAmount item / 100) acc) init
      = init +
        (subs.map (fun s => (s.items.map (fun i => itemMonthlyAmount i / 100)).sum)).sum := by
  induction subs generalizing init with
  | nil => simp
  | cons s ss ih =>
    simp only [List.foldl_cons, List.map_cons, List.sum_cons]
    rw [foldl_add_map_sum (fun i => itemMonthlyAmount i / 100) s.items init, ih]
    ring

/-- The MRR loop accumulates exactly the sum of per-subscription sums. -/
theorem computeMrr_eq_sum (subs : List SubscriptionObj) :
    computeMrr subs =
      (subs.map (fun s => (s.items.map (fun i => itemMonthlyAmount i / 100)).sum)).sum := by
  unfold computeMrr
  rw [computeMrr_foldl_aux, zero_add]

/-- C4: the fetcher's MRR is the sum over all subscription line items of
the item's unit amount normalized to monthly (divided by 12 when yearly,
multiplied by 4 when weekly, unchanged otherwise) converted from cents;
in particular a $1200/year item contributes $100, a $25/week item $100,
and a $50/month item $50. -/
theorem C4_mrr_normalization (subs : List SubscriptionObj) :
    computeMrr subs =
      ((subs.flatMap (fun s => s.items)).map (fun item =>
        (let amount := item.price.unit_amount.getD 0
         match item.price.recurring with
         | some r =>
           if r.interval = "year" then amount / 12
           else if r.interval = "week" then amount * 4
           else amount
         | none => amount) / 100)).sum ∧
    computeMrr [{ items := [{ price :=
      { id := "price_y", unit_amount := some 120000
        recurring := some { interval := "year" }, product := "prod_y" } }] }] = 100 ∧
    computeMrr [{ items := [{ price :=
      { id := "price_w", unit_amount := some 2500
        recurring := some { interval := "week" }, product := "prod_w" } }] }] = 100 ∧
    computeMrr [{ items := [{ price :=
      { id := "price_m", unit_amount := some 5000
        recurring := some { interval := "month" }, product := "prod_m" } }] }] = 50 := by
  refine ⟨?_, ?_, ?_, ?_⟩
  · rw [computeMrr_eq_sum, sum_map_flatMap]
    rfl
  · norm_num [computeMrr, itemMonthlyAmount]
  · norm_num [computeMrr, itemMonthlyAmount]
    rw [if_neg (by decide)]
    norm_num
  · norm_num [computeMrr, itemMonthlyAmount]
    rw [if_neg (by decide), if_neg (by decide)]
    norm_num

/-- C7 (amended statement is the claim itself, which holds): whenever the
fetcher returns a non-null data object, its subscribersToTarget field is
ceil(1,000,000 / 12 / avgPlanPrice) for positive average plan price and 0
otherwise — the target is the fixed 1,000,000 constant and the function
takes no target_arr input at all; an average plan price of $50 gives
1667. -/
theorem C7_subscribers_to_target_formula (key wh : Option String)
    (remote : RemoteData) (d : VentureData)
    (hdata : (fetchVentureStripeData key wh (.ok remote)).data = some d) :
    d.subscribersToTarget =
      (if computeAvgPlanPrice remote > 0
       then ⌈(1000000 : ℚ) / 12 / computeAvgPlanPrice remote⌉
       else 0) ∧
    computeSubscribersToTarget 50 = 1667 := by
  constructor
  · unfold fetchVentureStripeData at hdata
    by_cases hk : truthyStr key = false
    · rw [if_pos hk] at hdata
      simp at hdata
    · rw [if_neg hk] at hdata
      dsimp only at hdata
      by_cases hp : remote.products.length = 0
      · rw [if_pos hp] at hdata
        simp at hdata
      · rw [if_neg hp] at hdata
        by_cases hnd : remote.subscriptions.length = 0 ∧ remote.customersCount = 0
        · rw [if_pos hnd] at hdata
          simp only [Option.some.injEq] at hdata
          subst hdata
          rfl
        · rw [if_neg hnd] at hdata
          simp only [Option.some.injEq] at hdata
          subst hdata
          rfl
  · unfold computeSubscribersToTarget TARGET_ARR
    rw [if_pos (by norm_num)]
    rw [show (1000000 : ℚ) / 12 / 50 = 5000 / 3 by norm_num]
    rw [Int.ceil_eq_iff]
    norm_num

/-- Witness for C7: on `c7Remote` the fetcher returns data whose
subscribersToTarget is 1667, matching the formula at avgPlanPrice $50. -/
theorem C7_subscribers_to_target_formula_witness :
    (fetchVentureStripeData (some "sk_test_1") (some "whsec_1")
      (.ok c7Remote)).data = some c7Data ∧
    c7Data.subscribersToTarget = 1667 := by
  have hplans : buildPlans c7Remote =
      [{ id := "price_m", name := "Basic", price := 50
         interval := "month", activeCount := 0 }] := by
    simp [buildPlans, c7Remote, planCount, orDefault, List.mergeSort]
    norm_num
  have havg : computeAvgPlanPrice c7Remote = 50 := by
    unfold computeAvgPlanPrice
    rw [hplans]
    simp [c7Remote, computeMrr]
  have htarget : computeSubscribersToTarget 50 = 1667 := by
    unfold computeSubscribersToTarget TARGET_ARR
    rw [if_pos (by norm_num)]
    rw [show (1000000 : ℚ) / 12 / 50 = 5000 / 3 by norm_num]
    rw [Int.ceil_eq_iff]
    norm_num
  have hfetch : (fetchVentureStripeData (some "sk_test_1") (some "whsec_1")
      (.ok c7Remote)).data = some c7Data := by
    unfold fetchVentureStripeData
    rw [if_neg (by decide)]
    dsimp only
    rw [if_neg (by decide), if_pos (by decide)]
    simp only [Option.some.injEq, c7Data, VentureData.mk.injEq]
    rw [havg, htarget, hplans]
    norm_num [computeTotalRevenue, c7Remote]
  have h := (C7_subscribers_to_target_formula (some "sk_test_1") (some "whsec_1")
    c7Remote c7Data hfetch).1
  refine ⟨hfetch, ?_⟩
  rw [h, havg, if_pos (by norm_num)]
  rw [show (1000000 : ℚ) / 12 / 50 = 5000 / 3 by norm_num]
  rw [Int.ceil_eq_iff]
  norm_num

/-- C6 counterexample: the exact scenario of the claim (remote call
succeeds, one active product, zero subscriptions, zero customers, $500 of
paid one-time charges) but with no webhook secret configured yields
status `needs_webhook_secret`, not `no_data`, even though the data object
is populated exactly as the claim describes. -/
theorem C6_counterexample :
    (fetchVentureStripeData (some "sk_test_1") none (.ok c6Remote)).status.status
        = .needs_webhook_secret ∧
    ¬ (fetchVentureStripeData (some "sk_test_1") none (.ok c6Remote)).status.status
        = .no_data ∧
    (fetchVentureStripeData (some "sk_test_1") none (.ok c6Remote)).data =
      some { totalRevenue := 500, mrr := 0, activeSubscriptions := 0
             totalCustomers := 0, churnedCustomers := 0, churnRate := 0
             avgPlanPrice := 0, subscribersToTarget := 0, plans := [] } := by
  have hplans : buildPlans c6Remote = [] := by
    simp [buildPlans, c6Remote, List.mergeSort]
  have havg : computeAvgPlanPrice c6Remote = 0 := by
    unfold computeAvgPlanPrice
    rw [hplans]
    simp [c6Remote, computeMrr]
  refine ⟨by decide, by decide, ?_⟩
  unfold fetchVentureStripeData
  rw [if_neg (by decide)]
  dsimp only
  rw [if_neg (by decide), if_pos (by decide)]
  simp only [Option.some.injEq, VentureData.mk.injEq]
  rw [havg, hplans]
  norm_num [computeTotalRevenue, computeSubscribersToTarget, c6Remote]

/-- C6 amended: when the secret key is truthy, the remote call succeeds
with at least one active product and there are zero subscriptions and
zero customers, the status is `no_data` if the webhook secret is also
configured (and `needs_webhook_secret` otherwise), and in both cases the
data object is non-null with mrr, activeSubscriptions, totalCustomers,
churnedCustomers and churnRate zero while totalRevenue is the sum of
paid, non-refunded charge amounts converted from cents. -/
theorem C6_no_data_asymmetry_amended (key wh : Option String) (remote : RemoteData)
    (hk : truthyStr key = true)
    (hprod : remote.products.length ≠ 0)
    (hsubs : remote.subscriptions = [])
    (hcust : remote.customersCount = 0) :
    (fetchVentureStripeData key wh (.ok remote)).status.status
      = (if truthyStr wh then StatusTag.no_data else .needs_webhook_secret) ∧
    (fetchVentureStripeData key wh (.ok remote)).data = some
      { totalRevenue :=
          ((remote.charges.filter (fun c => c.paid && !c.refunded)).map
            (fun c => c.amount / 100)).sum
        mrr := 0
        activeSubscriptions := 0
        totalCustomers := 0
        churnedCustomers := 0
        churnRate := 0
        avgPlanPrice := computeAvgPlanPrice remote
        subscribersToTarget := computeSubscribersToTarget (computeAvgPlanPrice remote)
        plans := buildPlans remote } := by
  have hrev : computeTotalRevenue remote.charges =
      ((remote.charges.filter (fun c => c.paid && !c.refunded)).map
        (fun c => c.amount / 100)).sum := by
    unfold computeTotalRevenue
    rw [foldl_add_map_sum (fun c => c.amount / 100)
      (remote.charges.filter (fun c => c.paid && !c.refunded)) 0, zero_add]
  unfold fetchVentureStripeData
  rw [hk]
  simp only [Bool.true_eq_false, if_false]
  rw [if_neg hprod]
  rw [if_pos ⟨by rw [hsubs]; rfl, hcust⟩]
  constructor
  · unfold getStripeStatus
    simp only [hk]
    cases hwh : truthyStr wh with
    | false => simp
    | true => simp [truthyStr]
  · simp only [Option.some.injEq]
    rw [hrev]

/-- Witness for the amended C6: the $500-one-time-charge scenario with
both keys configured yields status `no_data` with totalRevenue 500 and
the zeroed recurring metrics. -/
theorem C6_no_data_asymmetry_amended_witness :
    (fetchVentureStripeData (some "sk_test_1") (some "whsec_1")
      (.ok c6Remote)).status.status = .no_data ∧
    (fetchVentureStripeData (some "sk_test_1") (some "whsec_1")
      (.ok c6Remote)).data = some
      { totalRevenue := 500, mrr := 0, activeSubscriptions := 0
        totalCustomers := 0, churnedCustomers := 0, churnRate := 0
        avgPlanPrice := 0, subscribersToTarget := 0, plans := [] } := by
  have hplans : buildPlans c6Remote = [] := by
    simp [buildPlans, c6Remote, List.mergeSort]
  have havg : computeAvgPlanPrice c6Remote = 0 := by
    unfold computeAvgPlanPrice
    rw [hplans]
    simp [c6Remote, computeMrr]
  have h := C6_no_data_asymmetry_amended (some "sk_test_1") (some "whsec_1")
    c6Remote (by decide) (by decide) rfl rfl
  refine ⟨by simpa using h.1, ?_⟩
  rw [h.2]
  simp only [Option.some.injEq, VentureData.mk.injEq]
  rw [havg, hplans]
  norm_num [computeSubscribersToTarget, c6Remote]

/-- C5: the classifier decides by first match in the fixed priority order
key → webhook → error → products → subscriptions → ready, carrying the
error text as detail in the error case.  Totality and determinism hold
because `getStripeStatus` is a Lean function. -/
theorem C5_classifier_priority_order (c : VentureStripeConfig) :
    (truthyStr c.stripeSecretKey = false →
      (getStripeStatus c).status = .needs_stripe_key) ∧
    (truthyStr c.stripeSecretKey = true →
      truthyStr c.stripeWebhookSecret = false →
      (getStripeStatus c).status = .needs_webhook_secret) ∧
    (truthyStr c.stripeSecretKey = true →
      truthyStr c.stripeWebhookSecret = true →
      truthyStr c.error = true →
      (getStripeStatus c).status = .error ∧
        (getStripeStatus c).details = c.error) ∧
    (truthyStr c.stripeSecretKey = true →
      truthyStr c.stripeWebhookSecret = true →
      truthyStr c.error = false →
      c.hasProducts = some false →
      (getStripeStatus c).status = .no_products) ∧
    (truthyStr c.stripeSecretKey = true →
      truthyStr c.stripeWebhookSecret = true →
      truthyStr c.error = false →
      c.hasProducts ≠ some false →
      c.hasSubscriptions = some false →
      (getStripeStatus c).status = .no_data) ∧
    (truthyStr c.stripeSecretKey = true →
      truthyStr c.stripeWebhookSecret = true →
      truthyStr c.error = false →
      c.hasProducts ≠ some false →
      c.hasSubscriptions ≠ some false →
      (getStripeStatus c).status = .ready) := by
  unfold getStripeStatus
  refine ⟨?_, ?_, ?_, ?_, ?_, ?_⟩ <;> intros <;> simp_all

/-- Witness for C5 at concrete configurations: a fully configured venture
classifies as ready, and one with an error set classifies as error with
the error text as detail. -/
theorem C5_classifier_priority_order_witness :
    (getStripeStatus
      { stripeSecretKey := some "sk_test_1"
        stripeWebhookSecret := some "whsec_1" }).status = .ready ∧
    (getStripeStatus
      { stripeSecretKey := some "sk_test_1"
        stripeWebhookSecret := some "whsec_1"
        error := some "connection refused" }).details =
      some "connection refused" := by
  constructor
  · exact (C5_classifier_priority_order
      { stripeSecretKey := some "sk_test_1"
        stripeWebhookSecret := some "whsec_1" }).2.2.2.2.2
      (by decide) (by decide) (by decide) (by decide) (by decide)
  · exact ((C5_classifier_priority_order
      { stripeSecretKey := some "sk_test_1"
        stripeWebhookSecret := some "whsec_1"
        error := some "connection refused" }).2.2.1
      (by decide) (by decide) (by decide)).2


/-- C10: the classifier only ever returns one of the six statuses
needs_stripe_key, needs_webhook_secret, error, no_products, no_data,
ready — never the declared `needs_env_vars` variant — and every returned
status carries a non-empty message. -/
theorem C10_classifier_codomain (c : VentureStripeConfig) :
    (getStripeStatus c).status ≠ .needs_env_vars ∧
    (getStripeStatus c).message ≠ "" ∧
    ((getStripeStatus c).status = .needs_stripe_key ∨
     (getStripeStatus c).status = .needs_webhook_secret ∨
     (getStripeStatus c).status = .error ∨
     (getStripeStatus c).status = .no_products ∨
     (getStripeStatus c).status = .no_data ∨
     (getStripeStatus c).status = .ready) := by
  unfold getStripeStatus
  split
  · simp
  split
  · simp
  split
  · simp
  split
  · simp
  split
  · simp
  · simp


/-- C8 counterexample: a `payment` tracking call whose amount is the
negative number -5 is not positive, yet it is not rejected — the handler
answers 200 and appends a revenue row with the negative amount (the
`!amount` guard only rejects a missing or zero amount). -/
theorem C8_counterexample :
    (trackIngest c1Db c8ReqNeg).2 = 200 ∧
    (trackIngest c1Db c8ReqNeg).1.revenue.length = 1 ∧
    ((trackIngest c1Db c8ReqNeg).1.revenue.map (fun r => r.amount)) = [some (-5)] ∧
    ¬ ((-5 : ℚ) > 0) := by
  refine ⟨by decide, by decide, by decide, by norm_num⟩

/-- C8 amended: a `payment` tracking call with a missing or zero (falsy)
amount is rejected with 400 and writes nothing; a call with any nonzero
amount — positive or negative, the sign is not inspected — appends
exactly one revenue row whose type is the fixed string `payment` (no
refund typing in this handler) and one `payment` event, leaving every
other table unchanged. -/
theorem C8_payment_ingest_amended (db : DB) (req : TrackRequest)
    (ventureId : String)
    (hv : truthyStr req.venture = true)
    (he : req.event = some "payment")
    (hres : findVentureIdBySlug db (req.venture.getD "") = some ventureId) :
    (truthyNum req.amount = false → trackIngest db req = (db, 400)) ∧
    (truthyNum req.amount = true →
      trackIngest db req =
        ({ db with
            revenue := db.revenue ++ [{
              venture_id := ventureId
              amount := req.amount
              currency := some (orDefault req.currency "USD")
              type := "payment"
              email := orNull req.email }]
            events := db.events ++ [{
              venture_id := ventureId
              type := "payment"
              email := orNull req.email }] }, 200)) := by
  have hred : trackIngest db req = handleTrackPayment db ventureId req := by
    have e1 : (("payment" : String) == "signup") = false := by decide
    have e2 : (("payment" : String) == "subscription") = false := by decide
    have e3 : (("payment" : String) == "payment") = true := by decide
    have e0 : truthyStr (some "payment") = true := by decide
    unfold trackIngest
    simp [hv, he, hres, e0, e1, e2, e3]
  constructor
  · intro hna
    rw [hred]
    unfold handleTrackPayment
    simp [hna]
  · intro hya
    rw [hred]
    unfold handleTrackPayment
    simp [hya]

/-- Witness for the amended C8: on the one-venture store, a `payment`
call without an amount is rejected as (db, 400), and one with amount 20
is accepted with 200. -/
theorem C8_payment_ingest_amended_witness :
    trackIngest c1Db c8ReqZero = (c1Db, 400) ∧
    (trackIngest c1Db c8ReqPos).2 = 200 := by
  constructor
  · exact (C8_payment_ingest_amended c1Db c8ReqZero "v1"
      (by decide) rfl (by decide)).1 (by decide)
  · rw [(C8_payment_ingest_amended c1Db c8ReqPos "v1"
      (by decide) rfl (by decide)).2 (by decide)]

/-- C9: the webhook receiver mutates nothing on any rejection path — a
missing venture parameter (400), an unresolvable or unconfigured venture
(404), and a delivery failing signature verification (400) all leave the
store untouched — and a validly signed delivery with an event type
outside the handled list is accepted as a 200 no-op. -/
theorem C9_webhook_verification_and_no_op (db : DB) (req : WebhookRequest) :
    (truthyStr req.ventureSlug = false → webhookPOST db req = (db, 400)) ∧
    (∀ v, truthyStr req.ventureSlug = true →
      single (db.ventures.filter (fun w => w.slug == req.ventureSlug.getD ""))
        = some v →
      ((truthyStr v.stripe_secret_key = false → webhookPOST db req = (db, 404)) ∧
       (truthyStr v.stripe_secret_key = true → req.signatureValid = false →
         webhookPOST db req = (db, 400)) ∧
       (truthyStr v.stripe_secret_key = true → req.signatureValid = true →
         req.eventType ∉ handledEventTypes → webhookPOST db req = (db, 200)))) ∧
    (truthyStr req.ventureSlug = true →
      single (db.ventures.filter (fun w => w.slug == req.ventureSlug.getD ""))
        = none →
      webhookPOST db req = (db, 404)) := by
  refine ⟨?_, ?_, ?_⟩
  · intro h
    unfold webhookPOST
    simp [h]
  · intro v h1 h2
    refine ⟨?_, ?_, ?_⟩
    · intro hk
      unfold webhookPOST
      simp [h1, h2, hk]
    · intro hk hsig
      unfold webhookPOST
      simp [h1, h2, hk, hsig]
    · intro hk hsig hmem
      unfold webhookPOST
      simp only [handledEventTypes, List.mem_cons, List.mem_singleton,
        not_or] at hmem
      obtain ⟨n1, n2, n3, n4, n5, n6, n7, n8, n9⟩ := hmem
      simp [h1, h2, hk, hsig, beq_iff_eq, n1, n2, n3, n4, n5, n6, n7, n8, n9]
  · intro h1 h2
    unfold webhookPOST
    simp [h1, h2]

/-- Witness for C9: on the configured store, a bad-signature delivery is
(store, 400) and a validly signed `charge.succeeded` delivery is
(store, 200), both without mutation. -/
theorem C9_webhook_verification_and_no_op_witness :
    webhookPOST c2Db c9ReqBadSig = (c2Db, 400) ∧
    webhookPOST c2Db c9ReqOther = (c2Db, 200) := by
  constructor
  · exact ((C9_webhook_verification_and_no_op c2Db c9ReqBadSig).2.1
      { id := "v1", slug := "acme"
        stripe_secret_key := some "sk_test_1"
        stripe_webhook_secret := some "whsec_1" }
      (by decide) (by decide)).2.1 (by decide) (by decide)
  · exact ((C9_webhook_verification_and_no_op c2Db c9ReqOther).2.1
      { id := "v1", slug := "acme"
        stripe_secret_key := some "sk_test_1"
        stripe_webhook_secret := some "whsec_1" }
      (by decide) (by decide)).2.2 (by decide) (by decide) (by decide)

/-- Filtering a mapped list equals mapping the filtered list when the map
does not change the predicate's verdict. -/
theorem filter_map_of_pred_inv {α : Type} (f : α → α) (p : α → Bool)
    (hp : ∀ x, p (f x) = p x) (l : List α) :
    (l.map f).filter p = (l.filter p).map f := by
  induction l with
  | nil => rfl
  | cons a t ih =>
    by_cases h : p a = true
    · simp [List.filter_cons, hp a, h, ih]
    · simp only [Bool.not_eq_true] at h
      simp [List.filter_cons, hp a, h, ih]

/-- The subscription-deleted handler, explicitly: cancel the matching
subscription rows, churn the signup linked through the (unique) matching
subscription, and append one churn event. -/
theorem handleSubscriptionDeleted_eq (d : DB) (vid : String)
    (s : WebhookSubscription) (q : SubscriptionRow) (sid : Nat)
    (hq : d.subscriptions.filter
        (fun t => t.stripe_subscription_id == s.id) = [q])
    (hqs : q.signup_id = some sid) :
    handleSubscriptionDeleted d vid s =
      { d with
        subscriptions := d.subscriptions.map (fun t =>
          if t.stripe_subscription_id == s.id
          then { t with status := "canceled" } else t)
        signups := d.signups.map (fun x =>
          if x.id == sid then { x with status := "churned" } else x)
        events := d.events ++ [{
          venture_id := vid, type := "churn", email := none }] } := by
  have hPF : ∀ t : SubscriptionRow,
      ((if t.stripe_subscription_id == s.id
        then { t with status := "canceled" } else t).stripe_subscription_id
          == s.id)
        = (t.stripe_subscription_id == s.id) := by
    intro t
    by_cases h : (t.stripe_subscription_id == s.id) = true
    · simp [h]
    · simp only [Bool.not_eq_true] at h
      simp [h]
  have hPq : (q.stripe_subscription_id == s.id) = true := by
    have hmem : q ∈ d.subscriptions.filter
        (fun t => t.stripe_subscription_id == s.id) := by
      rw [hq]
      exact List.mem_singleton.mpr rfl
    exact (List.mem_filter.mp hmem).2
  have hfm : ((d.subscriptions.map (fun t =>
      if t.stripe_subscription_id == s.id
      then { t with status := "canceled" } else t)).filter
        (fun t => t.stripe_subscription_id == s.id))
      = [{ q with status := "canceled" }] := by
    have hPq2 : q.stripe_subscription_id = s.id := beq_iff_eq.mp hPq
    rw [filter_map_of_pred_inv _ _ hPF, hq]
    simp [hPq, hPq2]
  unfold handleSubscriptionDeleted
  dsimp only
  rw [hfm]
  dsimp only [single]
  rw [hqs]

/-- C2 amended: processing a `customer.subscription.deleted` delivery for
a known subscription (uniquely matched, linked to a signup) marks that
signup `churned` and appends one `churn` event; processing the same
delivery a second time leaves the signups and subscriptions tables
unchanged (idempotent on state), but appends a second `churn` event — one
per delivery, not exactly one overall. -/
theorem C2_subscription_deleted_amended (db : DB) (req : WebhookRequest)
    (v : VentureRow) (s : WebhookSubscription) (r : SubscriptionRow) (sid : Nat)
    (h1 : truthyStr req.ventureSlug = true)
    (h2 : single (db.ventures.filter
        (fun w => w.slug == req.ventureSlug.getD "")) = some v)
    (h3 : truthyStr v.stripe_secret_key = true)
    (h4 : req.signatureValid = true)
    (h5 : req.eventType = "customer.subscription.deleted")
    (h6 : req.object = .sub s)
    (h7 : db.subscriptions.filter
        (fun t => t.stripe_subscription_id == s.id) = [r])
    (h8 : r.signup_id = some sid) :
    (∀ x ∈ (webhookPOST db req).1.signups, x.id = sid → x.status = "churned") ∧
    (webhookPOST (webhookPOST db req).1 req).1.signups
      = (webhookPOST db req).1.signups ∧
    (webhookPOST (webhookPOST db req).1 req).1.subscriptions
      = (webhookPOST db req).1.subscriptions ∧
    churnEventCount (webhookPOST db req).1 = churnEventCount db + 1 ∧
    churnEventCount (webhookPOST (webhookPOST db req).1 req).1
      = churnEventCount db + 2 := by
  have e1 : (("customer.subscription.deleted" : String)
      == "customer.subscription.created") = false := by decide
  have e2 : (("customer.subscription.deleted" : String)
      == "customer.subscription.updated") = false := by decide
  have e3 : (("customer.subscription.deleted" : String)
      == "customer.subscription.deleted") = true := by decide
  have hrun : ∀ d : DB, d.ventures = db.ventures →
      webhookPOST d req = (handleSubscriptionDeleted d v.id s, 200) := by
    intro d hd
    unfold webhookPOST
    rw [hd]
    simp [h1, h2, h3, h4, h5, h6, e1, e2, e3]
  have h1st : webhookPOST db req = (handleSubscriptionDeleted db v.id s, 200) :=
    hrun db rfl
  have hH1 := handleSubscriptionDeleted_eq db v.id s r sid h7 h8
  have h7' : ((webhookPOST db req).1).subscriptions.filter
      (fun t => t.stripe_subscription_id == s.id)
      = [{ r with status := "canceled" }] := by
    have hPF : ∀ t : SubscriptionRow,
        ((if t.stripe_subscription_id == s.id
          then { t with status := "canceled" } else t).stripe_subscription_id
            == s.id)
          = (t.stripe_subscription_id == s.id) := by
      intro t
      by_cases h : (t.stripe_subscription_id == s.id) = true
      · simp [h]
      · simp only [Bool.not_eq_true] at h
        simp [h]
    have hPr : (r.stripe_subscription_id == s.id) = true := by
      have hmem : r ∈ db.subscriptions.filter
          (fun t => t.stripe_subscription_id == s.id) := by
        rw [h7]
        exact List.mem_singleton.mpr rfl
      exact (List.mem_filter.mp hmem).2
    rw [h1st]
    dsimp only
    rw [hH1]
    dsimp only
    have hPr2 : r.stripe_subscription_id = s.id := beq_iff_eq.mp hPr
    rw [filter_map_of_pred_inv _ _ hPF, h7]
    simp [hPr, hPr2]
  have h2nd : webhookPOST (webhookPOST db req).1 req
      = (handleSubscriptionDeleted (webhookPOST db req).1 v.id s, 200) := by
    refine hrun _ ?_
    rw [h1st]
    dsimp only
    rw [hH1]
  have hH2 := handleSubscriptionDeleted_eq (webhookPOST db req).1 v.id s
    { r with status := "canceled" } sid h7' h8
  refine ⟨?_, ?_, ?_, ?_, ?_⟩
  · intro x hx hxid
    rw [h1st] at hx
    dsimp only at hx
    rw [hH1] at hx
    dsimp only at hx
    obtain ⟨y, hy, rfl⟩ := List.mem_map.mp hx
    by_cases hid : (y.id == sid) = true
    · simp [hid]
    · exfalso
      rw [if_neg (by simp [hid])] at hxid
      exact hid (beq_iff_eq.mpr hxid)
  · rw [h2nd]
    dsimp only
    rw [hH2]
    dsimp only
    rw [h1st]
    dsimp only
    rw [hH1]
    dsimp only
    rw [List.map_map]
    refine List.map_congr_left ?_
    intro x _
    by_cases hid : (x.id == sid) = true
    · have hid2 : x.id = sid := beq_iff_eq.mp hid
      simp [hid2]
    · simp only [Bool.not_eq_true] at hid
      have hid2 : ¬ x.id = sid := beq_eq_false_iff_ne.mp hid
      simp [hid2]
  · rw [h2nd]
    dsimp only
    rw [hH2]
    dsimp only
    rw [h1st]
    dsimp only
    rw [hH1]
    dsimp only
    rw [List.map_map]
    refine List.map_congr_left ?_
    intro t _
    by_cases hid : (t.stripe_subscription_id == s.id) = true
    · have hid2 : t.stripe_subscription_id = s.id := beq_iff_eq.mp hid
      simp [hid2]
    · simp only [Bool.not_eq_true] at hid
      have hid2 : ¬ t.stripe_subscription_id = s.id := beq_eq_false_iff_ne.mp hid
      simp [hid2]
  · rw [h1st]
    dsimp only
    rw [hH1]
    unfold churnEventCount
    dsimp only
    rw [List.filter_append]
    simp [churnEventCount]
  · rw [h2nd]
    dsimp only
    rw [hH2]
    unfold churnEventCount
    dsimp only
    rw [List.filter_append, List.length_append]
    have : ((webhookPOST db req).1.events.filter
        (fun e => e.type == "churn")).length = churnEventCount db + 1 := by
      rw [h1st]
      dsimp only
      rw [hH1]
      unfold churnEventCount
      dsimp only
      rw [List.filter_append]
      simp [churnEventCount]
    rw [this]
    simp
    rfl

/-- Witness for the amended C2: on the concrete store, the first delivery
brings the churn-event count from 0 to 1 and churns signup 0, the second
brings it to 2. -/
theorem C2_subscription_deleted_amended_witness :
    churnEventCount (webhookPOST c2Db c2Req).1 = churnEventCount c2Db + 1 ∧
    churnEventCount (webhookPOST (webhookPOST c2Db c2Req).1 c2Req).1
      = churnEventCount c2Db + 2 ∧
    (∀ x ∈ (webhookPOST c2Db c2Req).1.signups,
      x.id = 0 → x.status = "churned") := by
  have h := C2_subscription_deleted_amended c2Db c2Req
    { id := "v1", slug := "acme"
      stripe_secret_key := some "sk_test_1"
      stripe_webhook_secret := some "whsec_1" }
    { id := "sub_1" }
    { venture_id := "v1", signup_id := some 0
      stripe_subscription_id := "sub_1", status := "active" }
    0 (by decide) (by decide) (by decide) (by decide) rfl rfl (by decide) rfl
  exact ⟨h.2.2.2.1, h.2.2.2.2, h.1⟩

/-- C2 counterexample: delivering the same `customer.subscription.deleted`
webhook twice for the known subscription appends a second `churn` event —
the linked signup does stay `churned`, but the activity feed does not end
up with exactly one churn event. -/
theorem C2_counterexample :
    churnEventCount (webhookPOST c2Db c2Req).1 = 1 ∧
    churnEventCount (webhookPOST (webhookPOST c2Db c2Req).1 c2Req).1 = 2 ∧
    (∀ x ∈ (webhookPOST (webhookPOST c2Db c2Req).1 c2Req).1.signups,
      x.status = "churned") := by
  refine ⟨by decide, by decide, by decide⟩

/-- Under the per-(venture,email) uniqueness invariant, the rows matching
one (venture, email) key are none or exactly one. -/
theorem unique_filter_shape (l : List SignupRow)
    (hu : l.Pairwise (fun a b =>
      ¬ (a.venture_id = b.venture_id ∧ a.email = b.email)))
    (vid : String) (em : String) :
    l.filter (fun s => s.venture_id == vid && s.email == some em) = [] ∨
    ∃ x, l.filter (fun s => s.venture_id == vid && s.email == some em) = [x] := by
  cases hl : l.filter (fun s => s.venture_id == vid && s.email == some em) with
  | nil => exact Or.inl rfl
  | cons a t =>
    cases ht : t with
    | nil => exact Or.inr ⟨a, rfl⟩
    | cons b t2 =>
      exfalso
      have hp := hu.filter (fun s => s.venture_id == vid && s.email == some em)
      rw [hl, ht] at hp
      have hR := (List.pairwise_cons.mp hp).1 b (by simp)
      have ha : a ∈ l.filter (fun s => s.venture_id == vid && s.email == some em) := by
        rw [hl]
        simp
      have hb : b ∈ l.filter (fun s => s.venture_id == vid && s.email == some em) := by
        rw [hl, ht]
        simp
      have ka := (List.mem_filter.mp ha).2
      have kb := (List.mem_filter.mp hb).2
      simp only [Bool.and_eq_true, beq_iff_eq] at ka kb
      exact hR ⟨ka.1.trans kb.1.symm, ka.2.trans kb.2.symm⟩

/-- A map that does not change venture or email preserves the uniqueness
invariant. -/
theorem unique_map_key_preserving (l : List SignupRow) (f : SignupRow → SignupRow)
    (hf : ∀ s, (f s).venture_id = s.venture_id ∧ (f s).email = s.email)
    (hu : l.Pairwise (fun a b =>
      ¬ (a.venture_id = b.venture_id ∧ a.email = b.email))) :
    (l.map f).Pairwise (fun a b =>
      ¬ (a.venture_id = b.venture_id ∧ a.email = b.email)) := by
  refine List.Pairwise.map f ?_ hu
  intro a b hab hcon
  exact hab ⟨((hf a).1.symm.trans hcon.1).trans (hf b).1,
             ((hf a).2.symm.trans hcon.2).trans (hf b).2⟩

/-- The check-then-upsert `signup` case: starting from a store satisfying
the uniqueness invariant, it preserves the invariant, leaves exactly one
row for the (venture, email) key, and that row carries the request's
name/plan/status/source (with the handler's defaults). -/
theorem handleTrackSignup_post (db : DB) (ventureId em : String)
    (req : TrackRequest)
    (hem : req.email = some em) (hemne : em ≠ "")
    (hu : signupsUnique db) :
    signupsUnique (handleTrackSignup db ventureId req).1 ∧
    ((handleTrackSignup db ventureId req).1.signups.filter
       (fun s => s.venture_id == ventureId && s.email == some em)).length = 1 ∧
    (∀ s ∈ (handleTrackSignup db ventureId req).1.signups,
       s.venture_id = ventureId → s.email = some em →
       s.name = orNull req.name ∧ s.plan = orDefault req.plan "free" ∧
       s.status = orDefault req.status "active" ∧
       s.source = orNull req.source) := by
  have htr : truthyStr req.email = true := by
    rw [hem]
    simp [truthyStr, hemne]
  have hgd : req.email.getD "" = em := by rw [hem]; rfl
  unfold handleTrackSignup
  rw [if_neg (by simp [htr]), hgd]
  dsimp only
  cases hex : single (db.signups.filter
      (fun s => s.venture_id == ventureId && s.email == some em)) with
  | some ex =>
    have hfl : db.signups.filter
        (fun s => s.venture_id == ventureId && s.email == some em) = [ex] := by
      rcases unique_filter_shape db.signups hu ventureId em with h | ⟨x, hx⟩
      · rw [h] at hex
        exact absurd hex (by simp [single])
      · rw [hx] at hex
        simp only [single, Option.some.injEq] at hex
        rw [hx, hex]
    set f : SignupRow → SignupRow := fun s =>
      if s.id == ex.id then
        { s with name := orNull req.name
                 plan := orDefault req.plan "free"
                 status := orDefault req.status "active"
                 source := orNull req.source }
      else s with hfdef
    have hf : ∀ s, (f s).venture_id = s.venture_id ∧ (f s).email = s.email := by
      intro s
      by_cases h : (s.id == ex.id) = true
      · have h2 : s.id = ex.id := beq_iff_eq.mp h
        simp [hfdef, h2]
      · simp only [Bool.not_eq_true] at h
        have h2 : ¬ s.id = ex.id := beq_eq_false_iff_ne.mp h
        simp [hfdef, h2]
    have hPfs : ∀ s, ((f s).venture_id == ventureId && (f s).email == some em)
        = (s.venture_id == ventureId && s.email == some em) := by
      intro s
      rw [(hf s).1, (hf s).2]
    dsimp only
    refine ⟨?_, ?_, ?_⟩
    · exact unique_map_key_preserving db.signups f hf hu
    · rw [filter_map_of_pred_inv f _ hPfs, hfl]
      simp
    · intro s hs hsv hse
      obtain ⟨y, hy, rfl⟩ := List.mem_map.mp hs
      have hyv : y.venture_id = ventureId := ((hf y).1).symm.trans hsv
      have hye : y.email = some em := ((hf y).2).symm.trans hse
      have hyk : (y.venture_id == ventureId && y.email == some em) = true := by
        simp [beq_iff_eq, hyv, hye]
      have hyf : y ∈ db.signups.filter
          (fun s => s.venture_id == ventureId && s.email == some em) :=
        List.mem_filter.mpr ⟨hy, hyk⟩
      rw [hfl] at hyf
      have hyex : y = ex := List.mem_singleton.mp hyf
      subst hyex
      simp [hfdef]
  | none =>
    have hfl : db.signups.filter
        (fun s => s.venture_id == ventureId && s.email == some em) = [] := by
      rcases unique_filter_shape db.signups hu ventureId em with h | ⟨x, hx⟩
      · exact h
      · rw [hx] at hex
        exact absurd hex (by simp [single])
    have hnomatch : ∀ a ∈ db.signups,
        ¬ (a.venture_id = ventureId ∧ a.email = some em) := by
      intro a ha hcon
      have : a ∈ db.signups.filter
          (fun s => s.venture_id == ventureId && s.email == some em) :=
        List.mem_filter.mpr ⟨ha, by simp [beq_iff_eq, hcon.1, hcon.2]⟩
      rw [hfl] at this
      exact absurd this (List.not_mem_nil a)
    dsimp only
    refine ⟨?_, ?_, ?_⟩
    · refine List.pairwise_append.mpr ⟨hu, List.pairwise_singleton _ _, ?_⟩
      intro a ha b hb hcon
      have hb1 : b = { id := db.nextSignupId
                       venture_id := ventureId
                       email := some em
                       name := orNull req.name
                       plan := orDefault req.plan "free"
                       status := orDefault req.status "active"
                       source := orNull req.source } := List.mem_singleton.mp hb
      subst hb1
      exact hnomatch a ha ⟨hcon.1, hcon.2⟩
    · rw [List.filter_append, hfl]
      simp
    · intro s hs hsv hse
      rcases List.mem_append.mp hs with h | h
      · exact absurd ⟨hsv, hse⟩ (hnomatch s h)
      · have := List.mem_singleton.mp h
        subst this
        exact ⟨rfl, rfl, rfl, rfl⟩

/-- The signup handler never touches the ventures table. -/
theorem handleTrackSignup_ventures (d : DB) (vid : String) (r : TrackRequest) :
    ((handleTrackSignup d vid r).1).ventures = d.ventures := by
  unfold handleTrackSignup
  split
  · rfl
  · dsimp only
    split <;> rfl

/-- Venture resolution only reads the ventures table. -/
theorem findVentureIdBySlug_congr (d d' : DB) (h : d.ventures = d'.ventures)
    (slug : String) : findVentureIdBySlug d slug = findVentureIdBySlug d' slug := by
  unfold findVentureIdBySlug
  rw [h]

/-- The tracking ingestor preserves the uniqueness invariant: every event
case either leaves the signups table alone, updates rows without touching
their (venture, email) key, or check-then-upserts by that key. -/
theorem trackIngest_preserves_unique (db : DB) (req : TrackRequest)
    (hu : signupsUnique db) : signupsUnique (trackIngest db req).1 := by
  unfold trackIngest
  by_cases hv : truthyStr req.venture = false
  · rw [if_pos hv]
    exact hu
  rw [if_neg hv]
  by_cases he : truthyStr req.event = false
  · rw [if_pos he]
    exact hu
  rw [if_neg he]
  cases hfind : findVentureIdBySlug db (req.venture.getD "") with
  | none => exact hu
  | some vid =>
    dsimp only
    set ev := req.event.getD "" with hev
    have updPreserves : ∀ (g : SignupRow → SignupRow),
        (∀ s, (g s).venture_id = s.venture_id ∧ (g s).email = s.email) →
        ∀ em : String,
        signupsUnique (updateSignupsByEmail db vid em g) := by
      intro g hg em
      unfold updateSignupsByEmail
      refine unique_map_key_preserving db.signups _ ?_ hu
      intro s
      by_cases h : (s.venture_id == vid && s.email == some em) = true
      · simp only [h, if_pos]
        exact hg s
      · simp only [Bool.not_eq_true] at h
        simp [h]
    by_cases h1 : (ev == "signup") = true
    · rw [if_pos h1]
      by_cases hemail : truthyStr req.email = false
      · unfold handleTrackSignup
        rw [if_pos hemail]
        exact hu
      · simp only [Bool.not_eq_false] at hemail
        have hem : req.email = some (req.email.getD "") := by
          cases hre : req.email with
          | none =>
            rw [hre] at hemail
            exact absurd hemail (by simp [truthyStr])
          | some x => rfl
        have hemne : req.email.getD "" ≠ "" := by
          cases hre : req.email with
          | none =>
            rw [hre] at hemail
            exact absurd hemail (by simp [truthyStr])
          | some x =>
            rw [hre] at hemail
            simp only [Option.getD_some]
            simpa [truthyStr] using hemail
        exact (handleTrackSignup_post db vid (req.email.getD "") req hem hemne hu).1
    rw [if_neg h1]
    by_cases h2 : (ev == "subscription") = true
    · rw [if_pos h2]
      unfold handleTrackSubscription
      split
      · exact hu
      · dsimp only
        have hupd := updPreserves (fun s =>
          { s with plan := orDefault req.plan "paid"
                   status := orDefault req.status "active" })
          (fun s => ⟨rfl, rfl⟩) (req.email.getD "")
        split
        · exact hupd
        · exact hupd
    rw [if_neg h2]
    by_cases h3 : (ev == "payment") = true
    · rw [if_pos h3]
      unfold handleTrackPayment
      split
      · exact hu
      · exact hu
    rw [if_neg h3]
    by_cases h4 : (ev == "churn") = true
    · rw [if_pos h4]
      unfold handleTrackChurn
      split
      · exact hu
      · exact updPreserves (fun s => { s with status := "churned" })
          (fun s => ⟨rfl, rfl⟩) (req.email.getD "")
    rw [if_neg h4]
    by_cases h5 : (ev == "trial_start") = true
    · rw [if_pos h5]
      unfold handleTrackTrialStart
      split
      · exact hu
      · exact updPreserves (fun s =>
          { s with plan := orDefault req.plan "trial", status := "trial" })
          (fun s => ⟨rfl, rfl⟩) (req.email.getD "")
    rw [if_neg h5]
    by_cases h6 : (ev == "trial_end") = true
    · rw [if_pos h6]
      unfold handleTrackTrialEnd
      split
      · exact hu
      · exact updPreserves (fun s =>
          { s with status := if req.status == some "active"
                             then "active" else "churned" })
          (fun s => ⟨rfl, rfl⟩) (req.email.getD "")
    rw [if_neg h6]
    exact hu

/-- C1 amended: for the slug-resolving tracking ingestor, (i) every single
call and (ii) every sequence of calls preserves at-most-one-Signup per
(venture, email), and (iii) two `signup` calls for the same (venture,
email) leave exactly one matching Signup carrying the second call's
name/plan/status/source fields. -/
theorem C1_signup_idempotent_upsert_amended :
    (∀ db req, signupsUnique db → signupsUnique (trackIngest db req).1) ∧
    (∀ (db : DB) (reqs : List TrackRequest), signupsUnique db →
      signupsUnique (reqs.foldl (fun d r => (trackIngest d r).1) db)) ∧
    (∀ (db : DB) (r1 r2 : TrackRequest) (vslug em ventureId : String),
      signupsUnique db →
      r1.venture = some vslug → r2.venture = some vslug → vslug ≠ "" →
      r1.event = some "signup" → r2.event = some "signup" →
      r1.email = some em → r2.email = some em → em ≠ "" →
      findVentureIdBySlug db vslug = some ventureId →
      (((trackIngest (trackIngest db r1).1 r2).1).signups.filter
          (fun s => s.venture_id == ventureId && s.email == some em)).length
        = 1 ∧
      (∀ s ∈ ((trackIngest (trackIngest db r1).1 r2).1).signups,
        s.venture_id = ventureId → s.email = some em →
        s.name = orNull r2.name ∧ s.plan = orDefault r2.plan "free" ∧
        s.status = orDefault r2.status "active" ∧
        s.source = orNull r2.source)) := by
  refine ⟨trackIngest_preserves_unique, ?_, ?_⟩
  · intro db reqs hu
    induction reqs generalizing db with
    | nil => exact hu
    | cons r rs ih =>
      exact ih _ (trackIngest_preserves_unique db r hu)
  · intro db r1 r2 vslug em ventureId hu hv1 hv2 hvs he1 he2 hm1 hm2 hemne hres
    have hred : ∀ (d : DB) (r : TrackRequest), r.venture = some vslug →
        r.event = some "signup" → findVentureIdBySlug d vslug = some ventureId →
        trackIngest d r = handleTrackSignup d ventureId r := by
      intro d r hrv hre hres'
      have e0 : truthyStr (some vslug) = true := by simp [truthyStr, hvs]
      have e1 : truthyStr (some "signup") = true := by decide
      have e2 : (("signup" : String) == "signup") = true := by decide
      unfold trackIngest
      simp [hrv, hre, e0, e1, e2, hres']
    have hr1 : trackIngest db r1 = handleTrackSignup db ventureId r1 :=
      hred db r1 hv1 he1 hres
    have hu1 : signupsUnique (trackIngest db r1).1 :=
      trackIngest_preserves_unique db r1 hu
    have hres2 : findVentureIdBySlug (trackIngest db r1).1 vslug
        = some ventureId := by
      have hven : ((trackIngest db r1).1).ventures = db.ventures := by
        rw [hr1]
        exact handleTrackSignup_ventures db ventureId r1
      rw [findVentureIdBySlug_congr _ db hven vslug]
      exact hres
    have hr2 : trackIngest (trackIngest db r1).1 r2
        = handleTrackSignup (trackIngest db r1).1 ventureId r2 :=
      hred (trackIngest db r1).1 r2 hv2 he2 hres2
    rw [hr2]
    have hpost := handleTrackSignup_post (trackIngest db r1).1 ventureId em r2
      hm2 hemne hu1
    exact ⟨hpost.2.1, hpost.2.2⟩

/-- Witness for the amended C1: on the one-venture store, two `signup`
calls for (acme, a@b.c) leave exactly one matching signup row. -/
theorem C1_signup_idempotent_upsert_amended_witness :
    (((trackIngest (trackIngest c1Db c1Req1).1 c1Req2).1).signups.filter
        (fun s => s.venture_id == "v1" && s.email == some "a@b.c")).length
      = 1 := by
  exact (C1_signup_idempotent_upsert_amended.2.2 c1Db c1Req1 c1Req2
    "acme" "a@b.c" "v1" (by unfold signupsUnique; decide) rfl rfl (by decide)
    rfl rfl rfl rfl (by decide) (by decide)).1

/-- C1 counterexample: the API-key tracking variant's signup handler is a
plain insert with no existence check — submitting the same signup event
twice yields two Signup rows for (venture, email), violating uniqueness. -/
theorem C1_counterexample :
    (((trackIngest9 (some "key_1")
        (trackIngest9 (some "key_1") c1Db c1Req9).1 c1Req9).1).signups.filter
      (fun s => s.venture_id == "v1" && s.email == some "a@b.c")).length = 2 ∧
    ¬ signupsUnique (trackIngest9 (some "key_1")
        (trackIngest9 (some "key_1") c1Db c1Req9).1 c1Req9).1 := by
  constructor
  · decide
  · unfold signupsUnique
    decide

/-- The dashboard totals on a nonempty portfolio, written as sums: the
revenue-derived figures range over the `ready`-status ventures only,
while the signup count ranges over all ventures. -/
theorem dashboardTotals_sum (inputs : List DashInput) (h : inputs ≠ []) :
    dashboardTotals inputs =
      { totalRevenue := (((inputs.map ventureStat).filter
          (fun v => v.stripe_status == StatusTag.ready)).map
            (fun v => v.total_revenue)).sum
        mrr := (((inputs.map ventureStat).filter
          (fun v => v.stripe_status == StatusTag.ready)).map
            (fun v => v.mrr)).sum
        arr := (((inputs.map ventureStat).filter
          (fun v => v.stripe_status == StatusTag.ready)).map
            (fun v => v.arr)).sum
        totalSignups := ((inputs.map ventureStat).map
          (fun v => v.total_signups)).sum
        paidCustomers := (((inputs.map ventureStat).filter
          (fun v => v.stripe_status == StatusTag.ready)).map
            (fun v => v.paid_customers)).sum
        trialingCustomers := 0 } := by
  unfold dashboardTotals
  rw [if_neg (by simpa using h)]
  dsimp only
  simp only [foldl_add_map_sum, zero_add]

/-- C3: on every nonempty portfolio, the dashboard totals sum MRR, ARR,
total revenue and paid customers only over ventures whose integration
status is `ready`, while the total signup count sums over all ventures;
consequently appending a venture whose status is not `ready` (such as an
unconfigured `needs_stripe_key` venture) adds its signups to the totals
but contributes nothing to the revenue-derived figures. -/
theorem C3_portfolio_totals_asymmetry :
    (∀ inputs : List DashInput, inputs ≠ [] →
      dashboardTotals inputs =
        { totalRevenue := (((inputs.map ventureStat).filter
            (fun v => v.stripe_status == StatusTag.ready)).map
              (fun v => v.total_revenue)).sum
          mrr := (((inputs.map ventureStat).filter
            (fun v => v.stripe_status == StatusTag.ready)).map
              (fun v => v.mrr)).sum
          arr := (((inputs.map ventureStat).filter
            (fun v => v.stripe_status == StatusTag.ready)).map
              (fun v => v.arr)).sum
          totalSignups := ((inputs.map ventureStat).map
            (fun v => v.total_signups)).sum
          paidCustomers := (((inputs.map ventureStat).filter
            (fun v => v.stripe_status == StatusTag.ready)).map
              (fun v => v.paid_customers)).sum
          trialingCustomers := 0 }) ∧
    (∀ (inputs : List DashInput) (inp : DashInput), inputs ≠ [] →
      (ventureStat inp).stripe_status ≠ StatusTag.ready →
      ((dashboardTotals (inputs ++ [inp])).totalRevenue
          = (dashboardTotals inputs).totalRevenue ∧
       (dashboardTotals (inputs ++ [inp])).mrr
          = (dashboardTotals inputs).mrr ∧
       (dashboardTotals (inputs ++ [inp])).arr
          = (dashboardTotals inputs).arr ∧
       (dashboardTotals (inputs ++ [inp])).paidCustomers
          = (dashboardTotals inputs).paidCustomers ∧
       (dashboardTotals (inputs ++ [inp])).totalSignups
          = (dashboardTotals inputs).totalSignups
            + (ventureStat inp).total_signups)) := by
  refine ⟨dashboardTotals_sum, ?_⟩
  intro inputs inp h hnr
  have h2 : inputs ++ [inp] ≠ [] := by simp
  rw [dashboardTotals_sum inputs h, dashboardTotals_sum _ h2]
  have hm : (inputs ++ [inp]).map ventureStat
      = inputs.map ventureStat ++ [ventureStat inp] := by simp
  have hready : ((ventureStat inp).stripe_status == StatusTag.ready) = false :=
    beq_eq_false_iff_ne.mpr hnr
  have hf : ((inputs ++ [inp]).map ventureStat).filter
        (fun v => v.stripe_status == StatusTag.ready)
      = (inputs.map ventureStat).filter
        (fun v => v.stripe_status == StatusTag.ready) := by
    rw [hm, List.filter_append]
    simp [List.filter_cons, hready]
  refine ⟨?_, ?_, ?_, ?_, ?_⟩
  · rw [hf]
  · rw [hf]
  · rw [hf]
  · rw [hf]
  · rw [hm]
    simp

/-- Witness for C3: an unconfigured venture (needs_stripe_key) with 3
signups adds exactly its signup count to the portfolio totals and leaves
the portfolio MRR unchanged. -/
theorem C3_portfolio_totals_asymmetry_witness :
    (ventureStat c3VentureC).stripe_status = StatusTag.needs_stripe_key ∧
    (dashboardTotals ([c3VentureA] ++ [c3VentureC])).totalSignups
      = (dashboardTotals [c3VentureA]).totalSignups + 3 ∧
    (dashboardTotals ([c3VentureA] ++ [c3VentureC])).mrr
      = (dashboardTotals [c3VentureA]).mrr ∧
    (dashboardTotals [c3VentureA]).totalSignups = 5 := by
  have h := C3_portfolio_totals_asymmetry.2 [c3VentureA] c3VentureC
    (by simp) (by decide)
  refine ⟨by decide, ?_, h.2.1, by decide⟩
  rw [h.2.2.2.2]
  decide

end Studio
